import Mathlib

/-!
Verification of the launchpad process-launch subsystem.

Shallow embedding of `system/ulib/launchpad/launchpad.c` (the launch-context
code of this repository).  Kernel handles are modelled as `Int` values
(`mx_handle_t` is a signed 32-bit id; `MX_HANDLE_INVALID` is 0; a negative
value carried in a handle-typed return is a status code).  External kernel and
loader collaborators (calls such as `mx_vmo_create`, `mx_channel_call`,
`realloc`, the ELF loader) are modelled by explicit environment records that
carry the outcome of each call; every launchpad function returns, besides the
updated context, the list of handle values it passed to `mx_handle_close`,
so the claims about closing/discarding handles are statable.

Sizes are natural numbers; where C `size_t` overflow matters the code's own
guard is modelled with the explicit `2 ^ 64` bound.
-/

set_option autoImplicit false

/-! ## Status codes and constants

`magenta/errors.h` is not part of the sources; only the names used by
`launchpad.c` are modelled.  The exact numeric values are immaterial to every
claim (all error codes are distinct negative numbers, `NO_ERROR` is zero). -/

def NO_ERROR : Int := 0

def ERR_INTERNAL : Int := -1

def ERR_NO_MEMORY : Int := -4

def ERR_CALL_FAILED : Int := -5

def ERR_INVALID_ARGS : Int := -10

def ERR_BAD_HANDLE : Int := -11

def ERR_BUFFER_TOO_SMALL : Int := -15

def ERR_BAD_STATE : Int := -20

def MX_HANDLE_INVALID : Int := 0

def PAGE_SIZE : Nat := 4096

def SIZE_MAX : Nat := 2 ^ 64 - 1

/-- Modelled from the spec: the architecture-defined default stack size
(`MAGENTA_DEFAULT_STACK_SIZE` from `magenta/stack.h`, not under `src/`).
Its value is immaterial to the claims. -/
def MAGENTA_DEFAULT_STACK_SIZE : Nat := 256 * 1024

/-! Handle-info type tags (`magenta/processargs.h`, not under `src/`): only
distinctness of the tags matters to the claims. -/

def MX_HND_TYPE_PROC_SELF : Nat := 1

def MX_HND_TYPE_VMAR_ROOT : Nat := 2

def MX_HND_TYPE_THREAD_SELF : Nat := 3

def MX_HND_TYPE_STACK_VMO : Nat := 4

def MX_HND_TYPE_LOADER_SVC : Nat := 5

def MX_HND_TYPE_EXEC_VMO : Nat := 6

/-! ## The launch context (`struct launchpad`)

`handles`/`handles_info` model the backing arrays: their length is the
allocated capacity `handle_alloc`, of which the first `handle_count` slots are
live.  `special_loader_svc` and `special_exec_vmo` are the two slots of
`special_handles[HND_SPECIAL_COUNT]`.  `is_invalid_static` records pointer
identity with the file-static `invalid_launchpad` object (the one context that
is not heap-allocated). -/

structure Launchpad where
  argc : Nat
  envc : Nat
  args : List Nat
  args_len : Nat
  env : List Nat
  env_len : Nat
  handles : List Int
  handles_info : List Nat
  handle_count : Nat
  handle_alloc : Nat
  errmsg : String
  error : Int
  entry : Nat
  base : Nat
  vdso_base : Nat
  stack_size : Nat
  special_loader_svc : Int
  special_exec_vmo : Int
  loader_message : Bool
  is_invalid_static : Bool
deriving Repr, DecidableEq

/-- The zero-filled context produced by `calloc(1, sizeof(*lp))`. -/
def calloc_launchpad : Launchpad :=
  { argc := 0, envc := 0, args := [], args_len := 0, env := [], env_len := 0
    handles := [], handles_info := [], handle_count := 0, handle_alloc := 0
    errmsg := "", error := NO_ERROR, entry := 0, base := 0, vdso_base := 0
    stack_size := 0, special_loader_svc := MX_HANDLE_INVALID
    special_exec_vmo := MX_HANDLE_INVALID, loader_message := false
    is_invalid_static := false }

/-- The file-static `invalid_launchpad`, returned when `calloc` fails on
create so that callers can still call the add-handle functions, which will
discard the handles. -/
def invalid_launchpad : Launchpad :=
  { calloc_launchpad with
    errmsg := "create: could not allocate launchpad_t"
    error := ERR_NO_MEMORY
    is_invalid_static := true }

/-- Embedding of `lp_error`: latch the first error and its message; always return the
(possibly previously latched) current error. -/
def lp_error (lp : Launchpad) (error : Int) (msg : String) : Launchpad × Int :=
  if lp.error = NO_ERROR then
    ({ lp with error := error, errmsg := msg }, error)
  else
    (lp, lp.error)

/-- Result of a context operation: updated context, returned status, and the
handle values passed to `mx_handle_close` (in call order). -/
structure MxRet where
  lp : Launchpad
  status : Int
  closed : List Int
deriving Repr, DecidableEq

/-- Embedding of `close_handles`: close every handle in the array that is not
`MX_HANDLE_INVALID`; the result is the list of handles actually closed. -/
def close_handles (hs : List Int) : List Int :=
  hs.filter (fun h => h ≠ MX_HANDLE_INVALID)

/-- Embedding of `launchpad_destroy`: a no-op on the shared static `invalid_launchpad`;
otherwise closes the special handles and the live prefix of the handle table
(the buffers are then freed).  Returns the closed handles. -/
def launchpad_destroy (lp : Launchpad) : List Int :=
  if lp.is_invalid_static then []
  else
    close_handles [lp.special_loader_svc, lp.special_exec_vmo] ++
      close_handles (lp.handles.take lp.handle_count)

/-! ## Handle table -/

/-- Embedding of `more_handles`: ensure room for `n` more entries.  `r1`/`r2` are the
outcomes of the two `realloc` calls (handle array, info array).  Note the
capacity is doubled exactly once (`0 → 8`, `a → 2a`) and the function does not
re-check that `n` entries now fit. -/
def more_handles (lp : Launchpad) (n : Nat) (r1 r2 : Bool) : MxRet :=
  if lp.error ≠ NO_ERROR then ⟨lp, lp.error, []⟩
  else if lp.handle_alloc - lp.handle_count < n then
    let alloc := if lp.handle_alloc = 0 then 8 else lp.handle_alloc * 2
    if r1 = false then
      let (lp', e) := lp_error lp ERR_NO_MEMORY "out of memory for handle table"
      ⟨lp', e, []⟩
    else
      -- `lp->handles = handles;` happens before the second realloc: the
      -- handle array is already the grown one if only the info realloc fails.
      let lp1 := { lp with
        handles := lp.handles ++ List.replicate (alloc - lp.handle_alloc) 0 }
      if r2 = false then
        let (lp', e) := lp_error lp1 ERR_NO_MEMORY "out of memory for handle table"
        ⟨lp', e, []⟩
      else
        ⟨{ lp1 with
            handles_info := lp1.handles_info ++
              List.replicate (alloc - lp.handle_alloc) 0
            handle_alloc := alloc }, NO_ERROR, []⟩
  else ⟨lp, NO_ERROR, []⟩

/-- Overwrite `dst` starting at index `pos` with the elements of `src`
(modelling `memcpy` into the backing array; writing past the end extends the
list, which is how the C heap overflow of an undersized table shows up in the
model). -/
def write_slice {α : Type} (dst : List α) (pos : Nat) (src : List α) : List α :=
  dst.take pos ++ src ++ dst.drop (pos + src.length)

/-- Embedding of `launchpad_add_handle`: takes ownership of `h`; an invalid `h` latches
`ERR_BAD_HANDLE` without being closed; on table-growth failure `h` is
closed. -/
def launchpad_add_handle (lp : Launchpad) (h : Int) (id : Nat)
    (r1 r2 : Bool) : MxRet :=
  if h = MX_HANDLE_INVALID then
    let (lp', e) := lp_error lp ERR_BAD_HANDLE "added invalid handle"
    ⟨lp', e, []⟩
  else
    let m := more_handles lp 1 r1 r2
    if m.status = NO_ERROR then
      ⟨{ m.lp with
          handles := m.lp.handles.set m.lp.handle_count h
          handles_info := m.lp.handles_info.set m.lp.handle_count id
          handle_count := m.lp.handle_count + 1 }, NO_ERROR, []⟩
    else ⟨m.lp, m.status, [h]⟩

/-- Embedding of `launchpad_add_handles`: grow, then `memcpy` the whole batch in and bump
the count, then scan for invalid handles (the first one latches
`ERR_BAD_HANDLE`, but the already-copied batch stays in the table).  If the
growth failed (context already in error, or out of memory) the whole batch is
closed instead. -/
def launchpad_add_handles (lp : Launchpad) (n : Nat) (h : List Int)
    (id : List Nat) (r1 r2 : Bool) : MxRet :=
  let m := more_handles lp n r1 r2
  if m.status = NO_ERROR then
    let lp2 := { m.lp with
      handles := write_slice m.lp.handles m.lp.handle_count (h.take n)
      handles_info := write_slice m.lp.handles_info m.lp.handle_count (id.take n)
      handle_count := m.lp.handle_count + n }
    if (h.take n).any (fun x => x = MX_HANDLE_INVALID) then
      let (lp3, e) := lp_error lp2 ERR_BAD_HANDLE "added invalid handle"
      ⟨lp3, e, []⟩
    else ⟨lp2, NO_ERROR, []⟩
  else ⟨m.lp, m.status, h.take n⟩

/-! ## Argument/environment blob builder

The C code traverses the caller's strings twice: a `strlen` pass computing the
total, then a `stpcpy` pass copying.  The caller's memory may change between
(and during) the passes, so the two traversals are modelled as two separately
supplied views `scan`/`copy` of the string array; a race-free call has
`scan = copy`.  `mallocOk` is the outcome of the buffer allocation. -/

/-- One buffer with a trailing null terminator per string (the layout produced
by the `stpcpy` loop). -/
def serialize_strings (l : List (List Nat)) : List Nat :=
  l.foldr (fun s acc => s ++ 0 :: acc) []

/-- The `strlen` pass: `total += strlen(argv[i]) + 1`. -/
def args_total (l : List (List Nat)) : Nat :=
  l.foldl (fun t s => t + s.length + 1) 0

/-- Embedding of `launchpad_set_args`. -/
def launchpad_set_args (lp : Launchpad) (argc : Int)
    (scan copy : List (List Nat)) (mallocOk : Bool) : MxRet :=
  if lp.error ≠ NO_ERROR then ⟨lp, lp.error, []⟩
  else if argc < 0 then
    let (lp', e) := lp_error lp ERR_INVALID_ARGS "arguments: negative argc"
    ⟨lp', e, []⟩
  else
    let total := args_total scan
    if total > 0 then
      if mallocOk = false then
        let (lp', e) := lp_error lp ERR_NO_MEMORY "arguments: out of memory"
        ⟨lp', e, []⟩
      else
        let buffer := serialize_strings copy
        if buffer.length ≠ total then
          -- The strings changed in parallel.  Not kosher!
          let (lp', e) := lp_error lp ERR_INVALID_ARGS "arguments: trickery"
          ⟨lp', e, []⟩
        else
          ⟨{ lp with argc := argc.toNat, args := buffer, args_len := total },
            NO_ERROR, []⟩
    else
      ⟨{ lp with argc := argc.toNat, args := [], args_len := total },
        NO_ERROR, []⟩

/-- Embedding of `launchpad_set_environ`; `envp = none` models a NULL `envp` pointer, and
the pair carries the count-pass and copy-pass views of the array. -/
def launchpad_set_environ (lp : Launchpad)
    (envp : Option (List (List Nat) × List (List Nat)))
    (mallocOk : Bool) : MxRet :=
  if lp.error ≠ NO_ERROR then ⟨lp, lp.error, []⟩
  else
    let scan := match envp with | none => [] | some p => p.1
    let copy := match envp with | none => [] | some p => p.2
    let total := args_total scan
    let envc := scan.length
    if total > 0 then
      if mallocOk = false then
        let (lp', e) := lp_error lp ERR_NO_MEMORY "environ: out of memory"
        ⟨lp', e, []⟩
      else
        let buffer := serialize_strings copy
        if buffer.length ≠ total then
          -- The strings changed in parallel.  Not kosher!
          let (lp', e) := lp_error lp ERR_INVALID_ARGS "environ: trickery"
          ⟨lp', e, []⟩
        else
          ⟨{ lp with envc := envc, env := buffer, env_len := total },
            NO_ERROR, []⟩
    else
      ⟨{ lp with envc := envc, env := [], env_len := total }, NO_ERROR, []⟩

/-! ## Creation -/

/-- Embedding of `launchpad_create_with_process`: `callocOk` is the outcome of the
`calloc`; on failure the shared static `invalid_launchpad` is used.  The two
initial `launchpad_add_handle` calls install the process and root-vmar
handles.  Returns the context, `lp->error`, and the closed handles. -/
def launchpad_create_with_process (proc vmar : Int)
    (callocOk r1 r2 r3 r4 : Bool) : Launchpad × Int × List Int :=
  let lp := if callocOk then
      { calloc_launchpad with
        errmsg := "no error", stack_size := MAGENTA_DEFAULT_STACK_SIZE }
    else invalid_launchpad
  let a := launchpad_add_handle lp proc MX_HND_TYPE_PROC_SELF r1 r2
  let b := launchpad_add_handle a.lp vmar MX_HND_TYPE_VMAR_ROOT r3 r4
  (b.lp, b.lp.error, a.closed ++ b.closed)

/-! ## Stack size -/

/-- Embedding of `SIZE_MAX & -PAGE_SIZE`, the largest page-aligned `size_t` value. -/
def size_max_page_aligned : Nat := 2 ^ 64 - PAGE_SIZE

/-- Embedding of `launchpad_set_stack_size`.  For `new_size` below the clamp,
`(new_size + PAGE_SIZE - 1) & -PAGE_SIZE` cannot overflow 64 bits and equals
page round-up, written here arithmetically.  Returns the old size. -/
def launchpad_set_stack_size (lp : Launchpad) (new_size : Nat) :
    Launchpad × Nat :=
  let old_size := lp.stack_size
  let ns :=
    if new_size ≥ size_max_page_aligned then
      -- Ridiculously large size won't actually work at allocation time,
      -- but at least page rounding won't wrap it around to zero.
      size_max_page_aligned
    else if new_size > 0 then
      -- Round up to page size.
      ((new_size + PAGE_SIZE - 1) / PAGE_SIZE) * PAGE_SIZE
    else new_size
  if lp.error = NO_ERROR then
    ({ lp with stack_size := ns }, old_size)
  else (lp, old_size)

/-! ## Dynamic-loader RPC client -/

def LOADER_SVC_MSG_MAX : Nat := 1024

/-- Modelled from the spec: `sizeof(mx_loader_svc_msg_t)`, the fixed header
{32-bit transaction id, 32-bit opcode, 32-bit result/arg, reserved} of
`mxio/loader-service.h` (not under `src/`): four 32-bit fields. -/
def loader_svc_msg_header_size : Nat := 16

/-- Embedding of `sizeof(msg.data)` in `loader_svc_rpc`. -/
def loader_svc_data_max : Nat := LOADER_SVC_MSG_MAX - loader_svc_msg_header_size

/-- Modelled from the spec: the designated "status" reply opcode of
`mxio/loader-service.h` (not under `src/`); only its distinctness from other
opcodes matters. -/
def LOADER_SVC_OP_STATUS : Nat := 0

/-- Modelled from the spec: the request opcode for fetching an interpreter
image (`mxio/loader-service.h`, not under `src/`). -/
def LOADER_SVC_OP_LOAD_OBJECT : Nat := 2

/-- Outcome of the one `mx_channel_call` performed by `loader_svc_rpc`:
the call status, the `read_status` out-parameter, and the reply as read back
(size, opcode, `arg` status field, attached handle — `MX_HANDLE_INVALID` when
no handle arrived). -/
structure RpcEnv where
  call_status : Int
  read_status : Int
  reply_size : Nat
  reply_opcode : Nat
  reply_arg : Int
  reply_handle : Int
deriving Repr, DecidableEq

/-- Result of `loader_svc_rpc`: the combined handle-or-status return value and
the handles closed. -/
structure RpcRet where
  res : Int
  closed : List Int
deriving Repr, DecidableEq

/-- Embedding of `loader_svc_rpc` for a request of payload length `len` (the payload bytes
themselves do not influence the control flow). -/
def loader_svc_rpc (len : Nat) (env : RpcEnv) : RpcRet :=
  if len ≥ loader_svc_data_max then ⟨ERR_BUFFER_TOO_SMALL, []⟩
  else if env.call_status ≠ NO_ERROR then
    ⟨if env.call_status = ERR_CALL_FAILED then env.read_status
      else env.call_status, []⟩
  else
    -- Check for protocol violations.
    if env.reply_size ≠ loader_svc_msg_header_size then
      ⟨ERR_BAD_STATE, [env.reply_handle]⟩
    else if env.reply_opcode ≠ LOADER_SVC_OP_STATUS then
      ⟨ERR_BAD_STATE, [env.reply_handle]⟩
    else if env.reply_arg ≠ NO_ERROR then
      if env.reply_handle ≠ MX_HANDLE_INVALID then
        ⟨ERR_BAD_STATE, [env.reply_handle]⟩
      else if env.reply_arg > 0 then
        ⟨ERR_BAD_STATE, [env.reply_handle]⟩
      else ⟨env.reply_arg, []⟩
    else ⟨env.reply_handle, []⟩

/-! ## Image loader bridge -/

/-- Outcomes of the external collaborators used by `launchpad_elf_load`:
the ELF loader calls on the main image, the interpreter lookup, the lazily
fetched loader-service channel, the RPC reply, and the ELF loader calls on
the interpreter image. -/
structure ElfEnv where
  load_start_status : Int
  get_interp_status : Int
  interp : Option (List Nat)
  load_finish_status : Int
  load_finish_base : Nat
  load_finish_entry : Nat
  elf_stack_size : Nat
  loader_svc : Int
  rpc : RpcEnv
  interp_start_status : Int
  interp_finish_status : Int
  interp_base : Nat
  interp_entry : Nat
deriving Repr, DecidableEq

/-- Embedding of `check_elf_stack_size`: apply the image's stack-size hint, if any, through
the ordinary setter. -/
def check_elf_stack_size (lp : Launchpad) (elf_stack_size : Nat) : Launchpad :=
  if elf_stack_size > 0 then (launchpad_set_stack_size lp elf_stack_size).1
  else lp

/-- Embedding of `setup_loader_svc`: establish the loader-service endpoint lazily and
exactly once, caching it in `special_handles[HND_LOADER_SVC]`. -/
def setup_loader_svc (lp : Launchpad) (env : ElfEnv) : Launchpad × Int :=
  if lp.special_loader_svc ≠ MX_HANDLE_INVALID then (lp, NO_ERROR)
  else if env.loader_svc < 0 then (lp, env.loader_svc)
  else ({ lp with special_loader_svc := env.loader_svc }, NO_ERROR)

/-- Embedding of `handle_interp`: fetch the interpreter's image over RPC, load *its*
segments (recording its base/entry), close the fetched image handle, and on
success stash the original image `vmo` as the alternate-executable special
handle (closing any previous one) and set the loader-message flag.
Consumes `vmo` on success, not on failure. -/
def handle_interp (lp : Launchpad) (vmo : Int) (interp : List Nat)
    (env : ElfEnv) : MxRet :=
  let s := setup_loader_svc lp env
  if s.2 ≠ NO_ERROR then ⟨s.1, s.2, []⟩
  else
    let r := loader_svc_rpc interp.length env.rpc
    if r.res < 0 then ⟨s.1, r.res, r.closed⟩
    else
      let interp_vmo := r.res
      let (lp2, st2) :=
        if env.interp_start_status = NO_ERROR then
          if env.interp_finish_status = NO_ERROR then
            ({ s.1 with base := env.interp_base, entry := env.interp_entry },
              NO_ERROR)
          else (s.1, env.interp_finish_status)
        else (s.1, env.interp_start_status)
      if st2 = NO_ERROR then
        let oldClosed :=
          if lp2.special_exec_vmo ≠ MX_HANDLE_INVALID then
            [lp2.special_exec_vmo]
          else []
        ⟨{ lp2 with special_exec_vmo := vmo, loader_message := true },
          NO_ERROR, r.closed ++ [interp_vmo] ++ oldClosed⟩
      else ⟨lp2, st2, r.closed ++ [interp_vmo]⟩

/-- Result of `launchpad_elf_load`: besides the `MxRet` data,
`main_finished` records whether `elf_load_finish` was invoked on the *main*
image (it is not on the interpreter path). -/
structure ElfRet where
  lp : Launchpad
  status : Int
  closed : List Int
  main_finished : Bool
deriving Repr, DecidableEq

/-- Embedding of `launchpad_elf_load`. -/
def launchpad_elf_load (lp : Launchpad) (vmo : Int) (env : ElfEnv) : ElfRet :=
  if vmo < 0 then
    let (lp', e) := lp_error lp vmo "elf_load: negative vmo"
    ⟨lp', e, [], false⟩
  else if vmo = MX_HANDLE_INVALID then
    let (lp', e) := lp_error lp ERR_INVALID_ARGS "elf_load: invalid vmo"
    ⟨lp', e, [], false⟩
  else if lp.error ≠ NO_ERROR then
    -- goto done: close vmo, return lp->error.
    ⟨lp, lp.error, [vmo], false⟩
  else
    let body : Launchpad × Int × List Int × Bool :=
      if env.load_start_status ≠ NO_ERROR then
        let (lp1, _) := lp_error lp env.load_start_status
          "elf_load: elf_load_start() failed"
        (lp1, vmo, [], false)
      else if env.get_interp_status ≠ NO_ERROR then
        let (lp1, _) := lp_error lp env.get_interp_status
          "elf_load: get_interp() failed"
        (lp1, vmo, [], false)
      else
        match env.interp with
        | none =>
          if env.load_finish_status ≠ NO_ERROR then
            let (lp1, _) := lp_error lp env.load_finish_status
              "elf_load: elf_load_finish() failed"
            (lp1, vmo, [], true)
          else
            let lp1 := { lp with base := env.load_finish_base
                                 entry := env.load_finish_entry
                                 loader_message := false }
            (check_elf_stack_size lp1 env.elf_stack_size, vmo, [], true)
        | some interp =>
          let r := handle_interp lp vmo interp env
          if r.status ≠ NO_ERROR then
            let (lp1, _) := lp_error r.lp r.status
              "elf_load: handle_interp failed"
            (lp1, vmo, r.closed, false)
          else
            -- handle_interp() takes ownership of vmo on success
            (check_elf_stack_size r.lp env.elf_stack_size,
              MX_HANDLE_INVALID, r.closed, false)
    let lpF := body.1
    let vmoF := body.2.1
    let closedF := body.2.2.1
    ⟨lpF, lpF.error,
      if vmoF ≠ 0 then closedF ++ [vmoF] else closedF, body.2.2.2⟩

/-! ## Loader-message flag and loader-service override -/

/-- Embedding of `launchpad_send_loader_message`: set the flag (only when not in error)
and return its previous value. -/
def launchpad_send_loader_message (lp : Launchpad) (do_send : Bool) :
    Launchpad × Bool :=
  let result := lp.loader_message
  if lp.error = NO_ERROR then ({ lp with loader_message := do_send }, result)
  else (lp, result)

/-- Embedding of `launchpad_use_loader_service`: install a caller-supplied loader-service
handle, returning the previous one; in the error state the supplied handle is
closed and the sticky error returned.  The triple is
(context, returned value, closed handles). -/
def launchpad_use_loader_service (lp : Launchpad) (svc : Int) :
    Launchpad × Int × List Int :=
  if lp.error ≠ NO_ERROR then (lp, lp.error, [svc])
  else ({ lp with special_loader_svc := svc }, lp.special_loader_svc, [])

/-! ## Bootstrap message builder -/

/-- Modelled from the spec: `sizeof(mx_proc_args_t)` from
`magenta/processargs.h` (not under `src/`): the header
{protocol magic, version, handle-info array offset, argv offset + count,
envp offset + count}, seven 32-bit fields. -/
def mx_proc_args_size : Nat := 28

/-- The total size computed by `build_message`: header, one 32-bit handle-info
tag per handle-table entry, then the argv and envp byte blobs. -/
def build_message_total (handle_count args_len env_len : Nat) : Nat :=
  mx_proc_args_size + handle_count * 4 + args_len + env_len

/-- Modelled from the spec: `compute_initial_stack_pointer` of
`magenta/stack.h` (not under `src/`) — the initial stack pointer derived from
the mapped base plus the stack size (architecture-defined alignment elided). -/
def compute_initial_stack_pointer (base size : Nat) : Nat := base + size

/-- Outcomes of the external calls made by `send_loader_message`: the message
`malloc`, the three `mx_handle_duplicate` calls (process, vmar, thread) and
the `mx_channel_write`. -/
structure LoaderMsgEnv where
  malloc_ok : Bool
  dup_proc_status : Int
  dup_proc : Int
  dup_vmar_status : Int
  dup_vmar : Int
  dup_thread_status : Int
  dup_thread : Int
  write_status : Int
deriving Repr, DecidableEq

/-- Embedding of `send_loader_message`: duplicate the process/vmar/thread handles, write
the dynamic-linker bootstrap message carrying them together with whichever
special handles are present; a successful write consumes all of them (the
special slots are marked invalid and the flag cleared), a failed write closes
only the three fresh duplicates. -/
def send_loader_message (lp : Launchpad) (env : LoaderMsgEnv) : MxRet :=
  if env.malloc_ok = false then ⟨lp, ERR_NO_MEMORY, []⟩
  else if env.dup_proc_status ≠ NO_ERROR then ⟨lp, env.dup_proc_status, []⟩
  else if env.dup_vmar_status ≠ NO_ERROR then
    ⟨lp, env.dup_vmar_status, [env.dup_proc]⟩
  else if env.dup_thread_status ≠ NO_ERROR then
    ⟨lp, env.dup_thread_status, [env.dup_proc, env.dup_vmar]⟩
  else if env.write_status = NO_ERROR then
    -- message_write consumed all those handles.
    ⟨{ lp with special_loader_svc := MX_HANDLE_INVALID
               special_exec_vmo := MX_HANDLE_INVALID
               loader_message := false }, NO_ERROR, []⟩
  else
    -- Close the handles we duplicated for the loader.
    -- The others remain live in the launchpad.
    ⟨lp, env.write_status, [env.dup_thread, env.dup_vmar, env.dup_proc]⟩

/-! ## prepare_start -/

/-- Outcomes of the external calls made by `prepare_start`: stack vmo
creation and mapping, the initial-thread creation and its duplication, the
`realloc` outcome used by the internal `launchpad_add_handle` calls, the
loader-message environment, the procargs-message `malloc`, and the
`mx_channel_write` of the bootstrap message. -/
structure StartEnv where
  vmo_create_status : Int
  stack_vmo : Int
  vmar_map_status : Int
  stack_base : Nat
  realloc_ok : Bool
  thread_create_status : Int
  thread : Int
  dup_status : Int
  thread_copy : Int
  loader_env : LoaderMsgEnv
  msg_malloc_ok : Bool
  channel_write_status : Int
deriving Repr, DecidableEq

/-- Result of `prepare_start`: the context, status, out-parameters `*thread`
and `*sp`, closed handles, plus two effect markers: `stack_branch` is true iff
the stack-allocation branch ran (`mx_vmo_create` was invoked), and
`wrote_bootstrap` is true iff `mx_channel_write` of the generic bootstrap
message was invoked. -/
structure PrepareRet where
  lp : Launchpad
  status : Int
  thread : Int
  sp : Nat
  closed : List Int
  stack_branch : Bool
  wrote_bootstrap : Bool
deriving Repr, DecidableEq

/-- The stack paragraph of `prepare_start`: allocate and map the initial
thread's stack when `stack_size > 0` and register the stack vmo as a handle
passed to the child.  Returns (context, status, sp, closed, branch-ran). -/
def prepare_stack (lp : Launchpad) (env : StartEnv) :
    Launchpad × Int × Nat × List Int × Bool :=
  if lp.stack_size > 0 then
    if env.vmo_create_status < 0 then
      let (lp', e) := lp_error lp env.vmo_create_status "cannot create stack vmo"
      (lp', e, 0, [], true)
    else if env.vmar_map_status = NO_ERROR then
      let sp := compute_initial_stack_pointer env.stack_base lp.stack_size
      -- Pass the stack VMO to the process: the child can pair
      -- vm_object_get_size on it with the initial SP to learn its bounds.
      let r := launchpad_add_handle lp env.stack_vmo MX_HND_TYPE_STACK_VMO
        env.realloc_ok env.realloc_ok
      if r.status ≠ NO_ERROR then
        let (lp', e) := lp_error r.lp r.status "cannot map stack vmo"
        (lp', e, sp, r.closed ++ [env.stack_vmo], true)
      else (r.lp, NO_ERROR, sp, r.closed, true)
    else
      let (lp', e) := lp_error lp env.vmar_map_status "cannot map stack vmo"
      (lp', e, 0, [env.stack_vmo], true)
  else (lp, NO_ERROR, 0, [], false)

/-- The thread paragraph of `prepare_start`: create the initial thread,
duplicate its handle (the original will be consumed by the bootstrap write)
and register the duplicate in the handle table.
Returns (context, status, thread, closed). -/
def prepare_thread (lp : Launchpad) (env : StartEnv) :
    Launchpad × Int × Int × List Int :=
  if env.thread_create_status < 0 then
    let (lp', e) := lp_error lp env.thread_create_status
      "cannot create initial thread"
    (lp', e, env.thread, [])
  else if env.dup_status < 0 then
    let (lp', e) := lp_error lp env.dup_status "cannot duplicate thread handle"
    (lp', e, env.thread, [env.thread])
  else
    let r := launchpad_add_handle lp env.thread_copy MX_HND_TYPE_THREAD_SELF
      env.realloc_ok env.realloc_ok
    if r.status ≠ NO_ERROR then
      (r.lp, r.status, env.thread, r.closed ++ [env.thread])
    else (r.lp, NO_ERROR, env.thread, r.closed)

/-- Set the first `k` slots of the handle array to `MX_HANDLE_INVALID`
(the post-send clearing loop). -/
def clear_first (l : List Int) (k : Nat) : List Int :=
  (l.take k).map (fun _ => MX_HANDLE_INVALID) ++ l.drop k

/-- Embedding of `prepare_start`. -/
def prepare_start (lp : Launchpad) (env : StartEnv) : PrepareRet :=
  if lp.entry = 0 then ⟨lp, ERR_BAD_STATE, 0, 0, [], false, false⟩
  else
    let s := prepare_stack lp env
    let lp1 := s.1
    let sp := s.2.2.1
    let cl1 := s.2.2.2.1
    let created := s.2.2.2.2
    if s.2.1 ≠ NO_ERROR then ⟨lp1, s.2.1, 0, sp, cl1, created, false⟩
    else
      let t := prepare_thread lp1 env
      let lp2 := t.1
      let thread := t.2.2.1
      let cl2 := t.2.2.2
      if t.2.1 ≠ NO_ERROR then
        ⟨lp2, t.2.1, thread, sp, cl1 ++ cl2, created, false⟩
      else
        let l : Launchpad × Int × List Int :=
          if lp2.loader_message then
            let r := send_loader_message lp2 env.loader_env
            if r.status ≠ NO_ERROR then
              let (lp', e) := lp_error r.lp r.status
                "failed to send loader message"
              (lp', e, r.closed ++ [thread])
            else (r.lp, NO_ERROR, r.closed)
          else (lp2, NO_ERROR, [])
        let lp3 := l.1
        let cl3 := l.2.2
        if l.2.1 ≠ NO_ERROR then
          ⟨lp3, l.2.1, thread, sp, cl1 ++ cl2 ++ cl3, created, false⟩
        else if env.msg_malloc_ok = false then
          let (lp', e) := lp_error lp3 ERR_NO_MEMORY
            "out of memory assembling procargs message"
          ⟨lp', e, thread, sp, cl1 ++ cl2 ++ cl3 ++ [thread], created, false⟩
        else
          let size := build_message_total lp3.handle_count lp3.args_len
            lp3.env_len
          -- If reading the bootstrap message would need more than half the
          -- initial thread's stack, consider the message unreasonably large.
          if size > lp3.stack_size / 2 then
            let (lp', e) := lp_error lp3 ERR_BUFFER_TOO_SMALL
              "procargs message is too large"
            ⟨lp', e, thread, sp, cl1 ++ cl2 ++ cl3 ++ [thread], created, false⟩
          else if env.channel_write_status = NO_ERROR then
            -- message_write consumed all the handles.
            ⟨{ lp3 with handles := clear_first lp3.handles lp3.handle_count
                        handle_count := 0 },
              NO_ERROR, thread, sp, cl1 ++ cl2 ++ cl3, created, true⟩
          else
            let (lp', e) := lp_error lp3 env.channel_write_status
              "failed to write procargs message"
            ⟨lp', e, thread, sp, cl1 ++ cl2 ++ cl3 ++ [thread], created, true⟩

/-! ## Deserialization (spec-side reading of the blob)

Scanning the serialized buffer by null terminators, for the round-trip
property of the blob builder. -/

def split_nulls (bs : List Nat) : List (List Nat) :=
  bs.foldr
    (fun b acc =>
      if b = 0 then [] :: acc
      else
        match acc with
        | [] => [[b]]
        | s :: rest => (b :: s) :: rest)
    []

/-! ## Lemmas about the blob builder -/

theorem serialize_strings_cons (s : List Nat) (l : List (List Nat)) :
    serialize_strings (s :: l) = s ++ 0 :: serialize_strings l := rfl

theorem args_total_shift (l : List (List Nat)) (a : Nat) :
    l.foldl (fun t s => t + s.length + 1) a =
      a + l.foldl (fun t s => t + s.length + 1) 0 := by
  induction l generalizing a with
  | nil => simp
  | cons x xs ih =>
    simp only [List.foldl_cons]
    rw [ih (a + x.length + 1), ih (0 + x.length + 1)]
    ring

theorem args_total_cons (s : List Nat) (l : List (List Nat)) :
    args_total (s :: l) = s.length + 1 + args_total l := by
  simp only [args_total, List.foldl_cons]
  rw [args_total_shift l (0 + s.length + 1)]
  ring

theorem args_total_eq_sum (l : List (List Nat)) :
    args_total l = (l.map (fun s => s.length + 1)).sum := by
  induction l with
  | nil => rfl
  | cons s t ih => rw [args_total_cons, ih]; simp

theorem args_total_eq_len_sum (l : List (List Nat)) :
    args_total l = (l.map List.length).sum + l.length := by
  induction l with
  | nil => rfl
  | cons s t ih =>
    rw [args_total_cons, ih]
    simp
    omega

theorem serialize_strings_length (l : List (List Nat)) :
    (serialize_strings l).length = args_total l := by
  induction l with
  | nil => rfl
  | cons s t ih =>
    rw [serialize_strings_cons, args_total_cons]
    simp [ih]
    omega

theorem split_nulls_cons (b : Nat) (bs : List Nat) :
    split_nulls (b :: bs) =
      if b = 0 then [] :: split_nulls bs
      else
        match split_nulls bs with
        | [] => [[b]]
        | s :: rest => (b :: s) :: rest := rfl

theorem split_nulls_append (s t : List Nat) (h : ∀ b ∈ s, b ≠ 0) :
    split_nulls (s ++ 0 :: t) = s :: split_nulls t := by
  induction s with
  | nil => simp [split_nulls_cons]
  | cons b s ih =>
    have hb : b ≠ 0 := h b (by simp)
    have hs : ∀ x ∈ s, x ≠ 0 := fun x hx => h x (by simp [hx])
    rw [List.cons_append, split_nulls_cons, ih hs]
    simp [hb]

theorem split_nulls_serialize (l : List (List Nat))
    (h : ∀ s ∈ l, ∀ b ∈ s, b ≠ 0) :
    split_nulls (serialize_strings l) = l := by
  induction l with
  | nil => rfl
  | cons s t ih =>
    have hs : ∀ b ∈ s, b ≠ 0 := h s (by simp)
    have ht : ∀ x ∈ t, ∀ b ∈ x, b ≠ 0 := fun x hx => h x (by simp [hx])
    rw [serialize_strings_cons, split_nulls_append s _ hs, ih ht]

/-! ## Lemmas about the sticky-error state -/

theorem lp_error_latched (lp : Launchpad) (e : Int) (msg : String)
    (he : lp.error ≠ NO_ERROR) : lp_error lp e msg = (lp, lp.error) := by
  simp [lp_error, he]

theorem more_handles_error_state (lp : Launchpad) (n : Nat) (r1 r2 : Bool)
    (he : lp.error ≠ NO_ERROR) : more_handles lp n r1 r2 = ⟨lp, lp.error, []⟩ := by
  simp [more_handles, he]

theorem add_handle_error_state (lp : Launchpad) (h : Int) (id : Nat)
    (r1 r2 : Bool) (he : lp.error ≠ NO_ERROR) :
    launchpad_add_handle lp h id r1 r2 =
      ⟨lp, lp.error, if h = MX_HANDLE_INVALID then [] else [h]⟩ := by
  by_cases hh : h = MX_HANDLE_INVALID
  · simp [launchpad_add_handle, hh, lp_error_latched lp _ _ he]
  · simp [launchpad_add_handle, hh, more_handles_error_state lp 1 r1 r2 he, he]

theorem add_handles_error_state (lp : Launchpad) (n : Nat) (h : List Int)
    (id : List Nat) (r1 r2 : Bool) (he : lp.error ≠ NO_ERROR) :
    launchpad_add_handles lp n h id r1 r2 = ⟨lp, lp.error, h.take n⟩ := by
  simp [launchpad_add_handles, more_handles_error_state lp n r1 r2 he, he]

theorem set_args_error_state (lp : Launchpad) (argc : Int)
    (scan copy : List (List Nat)) (m : Bool) (he : lp.error ≠ NO_ERROR) :
    launchpad_set_args lp argc scan copy m = ⟨lp, lp.error, []⟩ := by
  simp [launchpad_set_args, he]

theorem set_environ_error_state (lp : Launchpad)
    (envp : Option (List (List Nat) × List (List Nat))) (m : Bool)
    (he : lp.error ≠ NO_ERROR) :
    launchpad_set_environ lp envp m = ⟨lp, lp.error, []⟩ := by
  simp [launchpad_set_environ, he]

theorem set_stack_size_error_state (lp : Launchpad) (n : Nat)
    (he : lp.error ≠ NO_ERROR) :
    launchpad_set_stack_size lp n = (lp, lp.stack_size) := by
  simp [launchpad_set_stack_size, he]

theorem use_loader_service_error_state (lp : Launchpad) (svc : Int)
    (he : lp.error ≠ NO_ERROR) :
    launchpad_use_loader_service lp svc = (lp, lp.error, [svc]) := by
  simp [launchpad_use_loader_service, he]

theorem send_loader_flag_error_state (lp : Launchpad) (b : Bool)
    (he : lp.error ≠ NO_ERROR) :
    launchpad_send_loader_message lp b = (lp, lp.loader_message) := by
  simp [launchpad_send_loader_message, he]

theorem elf_load_error_state (lp : Launchpad) (vmo : Int) (env : ElfEnv)
    (he : lp.error ≠ NO_ERROR) (hv : 0 < vmo) :
    launchpad_elf_load lp vmo env = ⟨lp, lp.error, [vmo], false⟩ := by
  have h1 : ¬ vmo < 0 := by omega
  have h2 : vmo ≠ MX_HANDLE_INVALID := by
    simp only [MX_HANDLE_INVALID]
    omega
  simp [launchpad_elf_load, h1, h2, he]

/-! ## Claim theorems -/

/-- C2 (confirmed): once the sticky first-error value `lp->error` is set,
every subsequent mutating operation on the context is a no-op that returns
that same first error (the context — argv/envp buffers, handle table, stack
size, special handles, loader-message flag — is returned unchanged; the only
remaining effect is closing the handles the caller passed in, which the claim
allows as "discarding").  The non-status-returning mutators
(`launchpad_set_stack_size`, `launchpad_send_loader_message`) also leave the
context unchanged while returning their usual previous-value results. -/
theorem sticky_error_noop (lp : Launchpad) (he : lp.error ≠ NO_ERROR) :
    (∀ argc scan copy m,
      launchpad_set_args lp argc scan copy m = ⟨lp, lp.error, []⟩) ∧
    (∀ envp m, launchpad_set_environ lp envp m = ⟨lp, lp.error, []⟩) ∧
    (∀ h id r1 r2, launchpad_add_handle lp h id r1 r2 =
      ⟨lp, lp.error, if h = MX_HANDLE_INVALID then [] else [h]⟩) ∧
    (∀ n h id r1 r2,
      launchpad_add_handles lp n h id r1 r2 = ⟨lp, lp.error, h.take n⟩) ∧
    (∀ n, launchpad_set_stack_size lp n = (lp, lp.stack_size)) ∧
    (∀ svc, launchpad_use_loader_service lp svc = (lp, lp.error, [svc])) ∧
    (∀ b, launchpad_send_loader_message lp b = (lp, lp.loader_message)) ∧
    (∀ vmo env, 0 < vmo →
      launchpad_elf_load lp vmo env = ⟨lp, lp.error, [vmo], false⟩) :=
  ⟨fun argc scan copy m => set_args_error_state lp argc scan copy m he,
   fun envp m => set_environ_error_state lp envp m he,
   fun h id r1 r2 => add_handle_error_state lp h id r1 r2 he,
   fun n h id r1 r2 => add_handles_error_state lp n h id r1 r2 he,
   fun n => set_stack_size_error_state lp n he,
   fun svc => use_loader_service_error_state lp svc he,
   fun b => send_loader_flag_error_state lp b he,
   fun vmo env hv => elf_load_error_state lp vmo env he hv⟩

/-- Witness for C2 at a concrete error-state context. -/
theorem sticky_error_noop_witness :
    launchpad_set_args { calloc_launchpad with error := ERR_BAD_STATE } 1
        [[97]] [[97]] true =
      ⟨{ calloc_launchpad with error := ERR_BAD_STATE }, ERR_BAD_STATE, []⟩ ∧
    launchpad_add_handle { calloc_launchpad with error := ERR_BAD_STATE } 5 1
        true true =
      ⟨{ calloc_launchpad with error := ERR_BAD_STATE }, ERR_BAD_STATE, [5]⟩ := by
  have h := sticky_error_noop { calloc_launchpad with error := ERR_BAD_STATE }
    (by decide)
  exact ⟨h.1 1 [[97]] [[97]] true, by simpa using h.2.2.1 5 1 true true⟩

/-- C7 (confirmed): `launchpad_set_args` serializes the argument list into one
contiguous buffer with one trailing null terminator per string; the stored
total length is the sum over the strings of (length + 1), and scanning the
stored buffer by null terminators reproduces the original ordered list. -/
theorem set_args_roundtrip (lp : Launchpad) (argv : List (List Nat))
    (herr : lp.error = NO_ERROR) (hz : ∀ s ∈ argv, ∀ b ∈ s, b ≠ 0) :
    (launchpad_set_args lp argv.length argv argv true).status = NO_ERROR ∧
    (launchpad_set_args lp argv.length argv argv true).lp.args_len =
      (argv.map (fun s => s.length + 1)).sum ∧
    split_nulls (launchpad_set_args lp argv.length argv argv true).lp.args =
      argv ∧
    (launchpad_set_args lp argv.length argv argv true).lp.argc =
      argv.length := by
  have hne : ¬ (lp.error ≠ NO_ERROR) := by simp [herr]
  have hnn : ¬ ((argv.length : Int) < 0) := by omega
  cases argv with
  | nil =>
    simp [launchpad_set_args, herr, args_total, split_nulls]
  | cons s t =>
    have htot : 0 < args_total (s :: t) := by
      rw [args_total_cons]; omega
    have hlen : (serialize_strings (s :: t)).length = args_total (s :: t) :=
      serialize_strings_length (s :: t)
    simp only [launchpad_set_args, hne, if_false, hnn, htot, if_pos, if_true,
      Bool.true_eq_false, hlen, ite_not, if_neg, not_true_eq_false]
    simp [hlen, split_nulls_serialize (s :: t) hz,
      ← args_total_eq_sum (s :: t), htot]
    rw [args_total_cons, args_total_eq_len_sum t]

/-- Witness for C7: `argv = ["a", "bb", "ccc"]` gives total length 9 and
round-trips. -/
theorem set_args_roundtrip_witness :
    (launchpad_set_args calloc_launchpad 3 [[97], [98, 98], [99, 99, 99]]
      [[97], [98, 98], [99, 99, 99]] true).lp.args_len = 9 ∧
    split_nulls (launchpad_set_args calloc_launchpad 3 [[97], [98, 98],
      [99, 99, 99]] [[97], [98, 98], [99, 99, 99]] true).lp.args =
      [[97], [98, 98], [99, 99, 99]] := by
  have h := set_args_roundtrip calloc_launchpad [[97], [98, 98], [99, 99, 99]]
    (by decide) (by decide)
  exact ⟨by simpa using h.2.1, by simpa using h.2.2.1⟩

/-- C8 (code bug): `more_handles` doubles the capacity exactly once
(`0 → 8`, `a → 2a`) and reports success without re-checking that the `n`
requested entries now fit: growing an empty table for a batch of 9 yields
capacity 8 yet returns `NO_ERROR`, after which `launchpad_add_handles`
`memcpy`s 9 entries into the 8-slot allocation (a heap overflow).  The claim
that "after a successful grow, the requested number of new entries fits in
the table" is what the code clearly intends but fails to ensure. -/
theorem more_handles_grow_does_not_fit :
    (more_handles calloc_launchpad 9 true true).status = NO_ERROR ∧
    (more_handles calloc_launchpad 9 true true).lp.handle_alloc = 8 ∧
    (more_handles calloc_launchpad 9 true true).lp.handle_alloc -
      (more_handles calloc_launchpad 9 true true).lp.handle_count < 9 := by
  decide

/-- C10 (confirmed): when `calloc` fails at creation, the creation function
still hands back the shared static `invalid_launchpad` context whose sticky
error is `ERR_NO_MEMORY`; every add operation on it returns that error and
merely closes the handles passed in, and `launchpad_destroy` on it is a no-op
that closes nothing. -/
theorem invalid_launchpad_contract :
    (∀ proc vmar r1 r2 r3 r4,
      (launchpad_create_with_process proc vmar false r1 r2 r3 r4).1 =
        invalid_launchpad ∧
      (launchpad_create_with_process proc vmar false r1 r2 r3 r4).2.1 =
        ERR_NO_MEMORY) ∧
    invalid_launchpad.error = ERR_NO_MEMORY ∧
    (∀ h id r1 r2, h ≠ MX_HANDLE_INVALID →
      launchpad_add_handle invalid_launchpad h id r1 r2 =
        ⟨invalid_launchpad, ERR_NO_MEMORY, [h]⟩) ∧
    (∀ n h id r1 r2, launchpad_add_handles invalid_launchpad n h id r1 r2 =
      ⟨invalid_launchpad, ERR_NO_MEMORY, h.take n⟩) ∧
    launchpad_destroy invalid_launchpad = [] := by
  have he : invalid_launchpad.error ≠ NO_ERROR := by decide
  have herr : invalid_launchpad.error = ERR_NO_MEMORY := by decide
  refine ⟨fun proc vmar r1 r2 r3 r4 => ?_, herr, ?_, ?_, by decide⟩
  · have ha := add_handle_error_state invalid_launchpad proc
      MX_HND_TYPE_PROC_SELF r1 r2 he
    have hb := add_handle_error_state invalid_launchpad vmar
      MX_HND_TYPE_VMAR_ROOT r3 r4 he
    simp [launchpad_create_with_process, ha, hb, herr]
  · intro h id r1 r2 hh
    have := add_handle_error_state invalid_launchpad h id r1 r2 he
    simpa [hh, herr] using this
  · intro n h id r1 r2
    have := add_handles_error_state invalid_launchpad n h id r1 r2 he
    simpa [herr] using this

/-- Witness for C10 at concrete handles. -/
theorem invalid_launchpad_contract_witness :
    (launchpad_create_with_process 3 4 false true true true true).1 =
      invalid_launchpad ∧
    launchpad_add_handle invalid_launchpad 7 1 true true =
      ⟨invalid_launchpad, ERR_NO_MEMORY, [7]⟩ := by
  have h := invalid_launchpad_contract
  exact ⟨(h.1 3 4 true true true true).1, h.2.2.1 7 1 true true (by decide)⟩

/-- C1 (counterexample): on a fresh, error-free context, a batch containing
the invalid handle is *not* discarded: `launchpad_add_handles` copies the
batch in and bumps the count before validating, so the count grows by `n`
(here from 0 to 1), nothing is closed, and only the sticky error is set. -/
theorem add_handles_invalid_batch_kept :
    calloc_launchpad.error = NO_ERROR ∧
    calloc_launchpad.handle_count = 0 ∧
    (launchpad_add_handles calloc_launchpad 1 [MX_HANDLE_INVALID] [7]
      true true).lp.handle_count = 1 ∧
    (launchpad_add_handles calloc_launchpad 1 [MX_HANDLE_INVALID] [7]
      true true).closed = [] ∧
    (launchpad_add_handles calloc_launchpad 1 [MX_HANDLE_INVALID] [7]
      true true).status = ERR_BAD_HANDLE := by
  decide

/-- C1 (amended): when the context is already in error (or the table cannot
grow), `launchpad_add_handles` closes and discards the whole batch with the
count unchanged; otherwise it appends all `n` handles — invalid ones included
— so the count always grows by `n`, and the first invalid handle in the batch
merely latches the sticky `ERR_BAD_HANDLE` error (the batch stays in the
table, to be closed by destroy). -/
theorem add_handles_batch_semantics (lp : Launchpad) (n : Nat) (h : List Int)
    (id : List Nat) (r1 r2 : Bool) :
    (lp.error = NO_ERROR →
      (lp.handle_alloc - lp.handle_count < n → r1 = true ∧ r2 = true) →
      (launchpad_add_handles lp n h id r1 r2).lp.handle_count =
        lp.handle_count + n ∧
      (launchpad_add_handles lp n h id r1 r2).closed = [] ∧
      (launchpad_add_handles lp n h id r1 r2).status =
        (if (h.take n).any (fun x => x = MX_HANDLE_INVALID) then
          ERR_BAD_HANDLE else NO_ERROR)) ∧
    (lp.error ≠ NO_ERROR →
      launchpad_add_handles lp n h id r1 r2 = ⟨lp, lp.error, h.take n⟩) ∧
    (lp.error = NO_ERROR → lp.handle_alloc - lp.handle_count < n →
      r1 = false →
      (launchpad_add_handles lp n h id r1 r2).lp.handle_count =
        lp.handle_count ∧
      (launchpad_add_handles lp n h id r1 r2).closed = h.take n ∧
      (launchpad_add_handles lp n h id r1 r2).status = ERR_NO_MEMORY) := by
  refine ⟨?_, fun he => add_handles_error_state lp n h id r1 r2 he, ?_⟩
  · intro he hr
    have hne : ¬ lp.error ≠ NO_ERROR := by simp [he]
    by_cases hfit : lp.handle_alloc - lp.handle_count < n
    · obtain ⟨h1, h2⟩ := hr hfit
      subst h1; subst h2
      by_cases hany : (h.take n).any (fun x => x = MX_HANDLE_INVALID) <;>
        simp [launchpad_add_handles, more_handles, hne, hfit, hany, lp_error, he]
    · by_cases hany : (h.take n).any (fun x => x = MX_HANDLE_INVALID) <;>
        simp [launchpad_add_handles, more_handles, hne, hfit, hany, lp_error, he]
  · intro he hfit hr1
    subst hr1
    have hne : ¬ lp.error ≠ NO_ERROR := by simp [he]
    simp [launchpad_add_handles, more_handles, hne, hfit, lp_error, he,
      ERR_NO_MEMORY, NO_ERROR]

/-- Witness for C1's amended statement: a valid one-handle batch on a fresh
context is appended (count 0 → 1) with status `NO_ERROR`, and the same batch
on an error-state context is closed with the context untouched. -/
theorem add_handles_batch_semantics_witness :
    ((launchpad_add_handles calloc_launchpad 1 [5] [7] true true).lp.handle_count
      = 1 ∧
     (launchpad_add_handles calloc_launchpad 1 [5] [7] true true).status =
      NO_ERROR) ∧
    launchpad_add_handles { calloc_launchpad with error := ERR_BAD_STATE } 1
        [5] [7] true true =
      ⟨{ calloc_launchpad with error := ERR_BAD_STATE }, ERR_BAD_STATE, [5]⟩ := by
  have h1 := (add_handles_batch_semantics calloc_launchpad 1 [5] [7]
    true true).1 (by decide) (fun _ => ⟨rfl, rfl⟩)
  have h2 := (add_handles_batch_semantics
    { calloc_launchpad with error := ERR_BAD_STATE } 1 [5] [7] true true).2.1
    (by decide)
  exact ⟨⟨h1.1, by simpa using h1.2.2⟩, by simpa using h2⟩

/-- C4 (confirmed): with the channel call itself succeeding, each protocol
violation — reply size different from the header size, reply opcode different
from the status opcode, a handle attached to a failure reply, or a positive
(out-of-range) failure status — makes `loader_svc_rpc` return `ERR_BAD_STATE`
and close whatever handle arrived. -/
theorem loader_svc_rpc_protocol_violations (len : Nat) (env : RpcEnv)
    (hlen : len < loader_svc_data_max) (hcall : env.call_status = NO_ERROR) :
    (env.reply_size ≠ loader_svc_msg_header_size →
      loader_svc_rpc len env = ⟨ERR_BAD_STATE, [env.reply_handle]⟩) ∧
    (env.reply_size = loader_svc_msg_header_size →
      env.reply_opcode ≠ LOADER_SVC_OP_STATUS →
      loader_svc_rpc len env = ⟨ERR_BAD_STATE, [env.reply_handle]⟩) ∧
    (env.reply_size = loader_svc_msg_header_size →
      env.reply_opcode = LOADER_SVC_OP_STATUS →
      env.reply_arg ≠ NO_ERROR → env.reply_handle ≠ MX_HANDLE_INVALID →
      loader_svc_rpc len env = ⟨ERR_BAD_STATE, [env.reply_handle]⟩) ∧
    (env.reply_size = loader_svc_msg_header_size →
      env.reply_opcode = LOADER_SVC_OP_STATUS →
      0 < env.reply_arg →
      loader_svc_rpc len env = ⟨ERR_BAD_STATE, [env.reply_handle]⟩) := by
  have hl : ¬ len ≥ loader_svc_data_max := by omega
  have hc : ¬ env.call_status ≠ NO_ERROR := by simp [hcall]
  refine ⟨?_, ?_, ?_, ?_⟩
  · intro hsz
    simp [loader_svc_rpc, hl, hc, hsz]
  · intro hsz hop
    simp [loader_svc_rpc, hl, hc, hsz, hop]
  · intro hsz hop harg hh
    simp [loader_svc_rpc, hl, hc, hsz, hop, harg, hh]
  · intro hsz hop harg
    have hne : env.reply_arg ≠ NO_ERROR := by
      simp only [NO_ERROR]; omega
    by_cases hh : env.reply_handle ≠ MX_HANDLE_INVALID
    · simp [loader_svc_rpc, hl, hc, hsz, hop, hne, hh]
    · simp [loader_svc_rpc, hl, hc, hsz, hop, hne, hh, harg]

/-- Witness for C4: a concrete wrong-size reply, a wrong-opcode reply, a
failure reply carrying a handle, and a positive failure status each yield
`ERR_BAD_STATE` with the attached handle closed. -/
theorem loader_svc_rpc_protocol_violations_witness :
    loader_svc_rpc 4 ⟨NO_ERROR, 0, 20, LOADER_SVC_OP_STATUS, 0, 9⟩ =
      ⟨ERR_BAD_STATE, [9]⟩ ∧
    loader_svc_rpc 4 ⟨NO_ERROR, 0, 16, 7, 0, 9⟩ = ⟨ERR_BAD_STATE, [9]⟩ ∧
    loader_svc_rpc 4 ⟨NO_ERROR, 0, 16, LOADER_SVC_OP_STATUS, -10, 9⟩ =
      ⟨ERR_BAD_STATE, [9]⟩ ∧
    loader_svc_rpc 4 ⟨NO_ERROR, 0, 16, LOADER_SVC_OP_STATUS, 3, 0⟩ =
      ⟨ERR_BAD_STATE, [0]⟩ := by
  refine ⟨?_, ?_, ?_, ?_⟩
  · exact (loader_svc_rpc_protocol_violations 4 _ (by decide) rfl).1 (by decide)
  · exact (loader_svc_rpc_protocol_violations 4 _ (by decide) rfl).2.1 rfl
      (by decide)
  · exact (loader_svc_rpc_protocol_violations 4 _ (by decide) rfl).2.2.1 rfl
      rfl (by decide) (by decide)
  · exact (loader_svc_rpc_protocol_violations 4 _ (by decide) rfl).2.2.2 rfl
      rfl (by decide)

/-- C6 (confirmed): in both `launchpad_set_args` and `launchpad_set_environ`
the total is computed from the first traversal and the copy comes from the
second; when the bytes copied differ from the computed total (the caller's
strings mutated between the passes) the call fails with the
inconsistency error — `ERR_INVALID_ARGS`, message "trickery" — the partial
buffer is discarded, and the previously stored buffer and counts are
unchanged (only the sticky error/errmsg fields change). -/
theorem blob_builder_trickery :
    (∀ (lp : Launchpad) (argc : Int) (scan copy : List (List Nat)),
      lp.error = NO_ERROR → ¬ argc < 0 → 0 < args_total scan →
      (serialize_strings copy).length ≠ args_total scan →
      launchpad_set_args lp argc scan copy true =
        ⟨{ lp with error := ERR_INVALID_ARGS,
                   errmsg := "arguments: trickery" }, ERR_INVALID_ARGS, []⟩) ∧
    (∀ (lp : Launchpad) (scan copy : List (List Nat)),
      lp.error = NO_ERROR → 0 < args_total scan →
      (serialize_strings copy).length ≠ args_total scan →
      launchpad_set_environ lp (some (scan, copy)) true =
        ⟨{ lp with error := ERR_INVALID_ARGS,
                   errmsg := "environ: trickery" }, ERR_INVALID_ARGS, []⟩) := by
  constructor
  · intro lp argc scan copy herr hargc htot hmis
    have hne : ¬ lp.error ≠ NO_ERROR := by simp [herr]
    simp [launchpad_set_args, hne, hargc, htot, hmis, lp_error, herr]
  · intro lp scan copy herr htot hmis
    have hne : ¬ lp.error ≠ NO_ERROR := by simp [herr]
    simp [launchpad_set_environ, hne, htot, hmis, lp_error, herr]

/-- Witness for C6: scan pass sees one string ("total" 2 bytes) while the
copy pass sees two strings (4 bytes copied): both setters fail with
`ERR_INVALID_ARGS`/"trickery" and leave the stored blobs unchanged. -/
theorem blob_builder_trickery_witness :
    launchpad_set_args calloc_launchpad 1 [[1]] [[1], [2]] true =
      ⟨{ calloc_launchpad with error := ERR_INVALID_ARGS,
                               errmsg := "arguments: trickery" },
        ERR_INVALID_ARGS, []⟩ ∧
    launchpad_set_environ calloc_launchpad (some ([[1]], [[1], [2]])) true =
      ⟨{ calloc_launchpad with error := ERR_INVALID_ARGS,
                               errmsg := "environ: trickery" },
        ERR_INVALID_ARGS, []⟩ :=
  ⟨blob_builder_trickery.1 calloc_launchpad 1 [[1]] [[1], [2]] rfl
      (by decide) (by decide) (by decide),
   blob_builder_trickery.2 calloc_launchpad [[1]] [[1], [2]] rfl
      (by decide) (by decide)⟩

/-- In `prepare_start` with a resolved entry point and stack allocation
disabled (`stack_size = 0`), the stack branch is skipped and `sp` stays zero
on every path. -/
theorem prepare_start_no_stack (lp : Launchpad) (env : StartEnv)
    (hentry : lp.entry ≠ 0) (hzero : ¬ lp.stack_size > 0) :
    (prepare_start lp env).stack_branch = false ∧
    (prepare_start lp env).sp = 0 := by
  unfold prepare_start prepare_stack
  rw [if_neg hentry, if_neg hzero]
  dsimp only
  repeat' split
  all_goals simp

/-- C9 (confirmed): `launchpad_set_stack_size` stores zero as zero, rounds
every other size below the clamp up to the next multiple of `PAGE_SIZE`, and
clamps sizes at or above `SIZE_MAX & -PAGE_SIZE` to that largest page-aligned
value (so rounding never wraps to zero); the stored size is always
page-aligned.  A stored size of zero disables stack allocation in
`prepare_start`: the stack branch (vmo creation, mapping, stack-handle
registration) is skipped and the initial stack pointer stays zero. -/
theorem stack_size_semantics :
    (∀ (lp : Launchpad) (n : Nat), lp.error = NO_ERROR →
      (launchpad_set_stack_size lp n).1.stack_size % PAGE_SIZE = 0 ∧
      (n = 0 → (launchpad_set_stack_size lp n).1.stack_size = 0) ∧
      (0 < n → n < size_max_page_aligned →
        (launchpad_set_stack_size lp n).1.stack_size =
          ((n + PAGE_SIZE - 1) / PAGE_SIZE) * PAGE_SIZE ∧
        n ≤ (launchpad_set_stack_size lp n).1.stack_size ∧
        (launchpad_set_stack_size lp n).1.stack_size < n + PAGE_SIZE) ∧
      (size_max_page_aligned ≤ n →
        (launchpad_set_stack_size lp n).1.stack_size =
          size_max_page_aligned)) ∧
    (∀ (lp : Launchpad) (env : StartEnv), lp.entry ≠ 0 → lp.stack_size = 0 →
      (prepare_start lp env).stack_branch = false ∧
      (prepare_start lp env).sp = 0) := by
  constructor
  · intro lp n herr
    simp only [launchpad_set_stack_size, herr, if_pos]
    by_cases hclamp : n ≥ size_max_page_aligned
    · rw [if_pos hclamp]
      refine ⟨by decide, ?_, ?_, fun _ => rfl⟩
      · intro h0
        exfalso
        simp only [size_max_page_aligned, PAGE_SIZE] at hclamp
        omega
      · intro _ hlt
        simp only [size_max_page_aligned, PAGE_SIZE] at hclamp hlt
        omega
    · rw [if_neg hclamp]
      by_cases hpos : n > 0
      · rw [if_pos hpos]
        refine ⟨?_, fun h0 => absurd h0 (by omega), ?_,
          fun hge => absurd hge hclamp⟩
        · simp only [PAGE_SIZE]
          omega
        · intro _ _
          refine ⟨rfl, ?_, ?_⟩ <;> (simp only [PAGE_SIZE]; omega)
      · rw [if_neg hpos]
        have h0 : n = 0 := by omega
        subst h0
        exact ⟨by decide, fun _ => rfl, fun hp => absurd hp (by decide),
          fun hge => absurd hge (by decide)⟩
  · intro lp env hentry hzero
    have h0 : ¬ lp.stack_size > 0 := by omega
    exact prepare_start_no_stack lp env hentry h0

/-- Witness for C9: size 1 is rounded up to one page, size 0 is stored as
zero, a near-`SIZE_MAX` size is clamped, and a context with stack size 0 and
a resolved entry point skips the stack branch with `sp = 0`. -/
theorem stack_size_semantics_witness :
    (launchpad_set_stack_size calloc_launchpad 1).1.stack_size = 4096 ∧
    (launchpad_set_stack_size calloc_launchpad 0).1.stack_size = 0 ∧
    (launchpad_set_stack_size calloc_launchpad (2 ^ 64 - 1)).1.stack_size =
      2 ^ 64 - 4096 ∧
    (prepare_start { calloc_launchpad with entry := 77 }
      ⟨0, 0, 0, 0, true, 0, 0, 0, 0, ⟨true, 0, 0, 0, 0, 0, 0, 0⟩, true, 0⟩
      ).stack_branch = false ∧
    (prepare_start { calloc_launchpad with entry := 77 }
      ⟨0, 0, 0, 0, true, 0, 0, 0, 0, ⟨true, 0, 0, 0, 0, 0, 0, 0⟩, true, 0⟩
      ).sp = 0 := by
  have h1 := (stack_size_semantics.1 calloc_launchpad 1 rfl).2.2.1 (by decide)
    (by decide)
  have h0 := (stack_size_semantics.1 calloc_launchpad 0 rfl).2.1 rfl
  have hc := (stack_size_semantics.1 calloc_launchpad (2 ^ 64 - 1) rfl).2.2.2
    (by decide)
  have hp := stack_size_semantics.2 { calloc_launchpad with entry := 77 }
    ⟨0, 0, 0, 0, true, 0, 0, 0, 0, ⟨true, 0, 0, 0, 0, 0, 0, 0⟩, true, 0⟩
    (by decide) rfl
  refine ⟨?_, h0, ?_, hp.1, hp.2⟩
  · rw [h1.1]
    decide
  · rw [hc]
    rfl

/-- A protocol-conforming success reply makes `loader_svc_rpc` return the
attached handle and close nothing. -/
theorem loader_svc_rpc_ok (len : Nat) (env : RpcEnv)
    (hlen : len < loader_svc_data_max) (hcall : env.call_status = NO_ERROR)
    (hsz : env.reply_size = loader_svc_msg_header_size)
    (hop : env.reply_opcode = LOADER_SVC_OP_STATUS)
    (harg : env.reply_arg = NO_ERROR) :
    loader_svc_rpc len env = ⟨env.reply_handle, []⟩ := by
  have hl : ¬ len ≥ loader_svc_data_max := by omega
  simp [loader_svc_rpc, hl, hcall, hsz, hop, harg]

/-- Embedding of `handle_interp` on the all-success path: the interpreter image's
base/entry are recorded, the fetched interpreter vmo is closed (together with
any previously stashed alternate executable), the original `vmo` becomes the
alternate-executable special handle, and the loader-message flag is set. -/
theorem handle_interp_ok (lp : Launchpad) (vmo : Int) (path : List Nat)
    (env : ElfEnv)
    (hsvc : lp.special_loader_svc ≠ MX_HANDLE_INVALID)
    (hplen : path.length < loader_svc_data_max)
    (hcall : env.rpc.call_status = NO_ERROR)
    (hsz : env.rpc.reply_size = loader_svc_msg_header_size)
    (hop : env.rpc.reply_opcode = LOADER_SVC_OP_STATUS)
    (harg : env.rpc.reply_arg = NO_ERROR)
    (hh : 0 < env.rpc.reply_handle)
    (histart : env.interp_start_status = NO_ERROR)
    (hifin : env.interp_finish_status = NO_ERROR) :
    handle_interp lp vmo path env =
      ⟨{ lp with base := env.interp_base, entry := env.interp_entry,
                 special_exec_vmo := vmo, loader_message := true },
        NO_ERROR,
        env.rpc.reply_handle ::
          (if lp.special_exec_vmo = MX_HANDLE_INVALID then []
           else [lp.special_exec_vmo])⟩ := by
  have hrpc := loader_svc_rpc_ok path.length env.rpc hplen hcall hsz hop harg
  have hnn : ¬ env.rpc.reply_handle < 0 := by omega
  simp [handle_interp, setup_loader_svc, hsvc, hrpc, hnn, histart, hifin]

/-- The stack-size hint application `check_elf_stack_size` touches only the
stack size: error, entry, base, loader-message flag and the special handles
are unchanged. -/
theorem check_elf_stack_size_preserves (lp : Launchpad) (s : Nat) :
    (check_elf_stack_size lp s).error = lp.error ∧
    (check_elf_stack_size lp s).entry = lp.entry ∧
    (check_elf_stack_size lp s).base = lp.base ∧
    (check_elf_stack_size lp s).loader_message = lp.loader_message ∧
    (check_elf_stack_size lp s).special_exec_vmo = lp.special_exec_vmo := by
  unfold check_elf_stack_size launchpad_set_stack_size
  repeat' split
  all_goals simp

/-- C5 (confirmed): loading an executable whose interpreter lookup returns a
path, with the loader RPC and the interpreter load succeeding: the
loader-message flag ends up true, the original executable image `vmo` is
retained as the alternate-executable special handle (the previous one, if
any, is closed, and `vmo` itself is not closed), and the recorded entry point
and load base are those of the interpreter image fetched over RPC;
`elf_load_finish` is never invoked on the original image. -/
theorem elf_load_interp_path (lp : Launchpad) (vmo : Int) (env : ElfEnv)
    (path : List Nat)
    (herr : lp.error = NO_ERROR) (hvmo : 0 < vmo)
    (hsvc : lp.special_loader_svc ≠ MX_HANDLE_INVALID)
    (hstart : env.load_start_status = NO_ERROR)
    (hgi : env.get_interp_status = NO_ERROR)
    (hinterp : env.interp = some path)
    (hplen : path.length < loader_svc_data_max)
    (hcall : env.rpc.call_status = NO_ERROR)
    (hsz : env.rpc.reply_size = loader_svc_msg_header_size)
    (hop : env.rpc.reply_opcode = LOADER_SVC_OP_STATUS)
    (harg : env.rpc.reply_arg = NO_ERROR)
    (hh : 0 < env.rpc.reply_handle)
    (histart : env.interp_start_status = NO_ERROR)
    (hifin : env.interp_finish_status = NO_ERROR) :
    (launchpad_elf_load lp vmo env).status = NO_ERROR ∧
    (launchpad_elf_load lp vmo env).lp.loader_message = true ∧
    (launchpad_elf_load lp vmo env).lp.special_exec_vmo = vmo ∧
    (launchpad_elf_load lp vmo env).lp.entry = env.interp_entry ∧
    (launchpad_elf_load lp vmo env).lp.base = env.interp_base ∧
    (launchpad_elf_load lp vmo env).main_finished = false ∧
    (launchpad_elf_load lp vmo env).closed =
      env.rpc.reply_handle ::
        (if lp.special_exec_vmo = MX_HANDLE_INVALID then []
         else [lp.special_exec_vmo]) ∧
    (vmo ≠ env.rpc.reply_handle → vmo ≠ lp.special_exec_vmo →
      vmo ∉ (launchpad_elf_load lp vmo env).closed) := by
  have h1 : ¬ vmo < 0 := by omega
  have h2 : vmo ≠ MX_HANDLE_INVALID := by
    simp only [MX_HANDLE_INVALID]; omega
  have h2z : ¬ vmo = 0 := by omega
  have hne : ¬ lp.error ≠ NO_ERROR := by simp [herr]
  have hhi := handle_interp_ok lp vmo path env hsvc hplen hcall hsz hop harg
    hh histart hifin
  have helf : launchpad_elf_load lp vmo env =
      ⟨check_elf_stack_size
          { lp with base := env.interp_base, entry := env.interp_entry,
                    special_exec_vmo := vmo, loader_message := true }
          env.elf_stack_size,
        (check_elf_stack_size
          { lp with base := env.interp_base, entry := env.interp_entry,
                    special_exec_vmo := vmo, loader_message := true }
          env.elf_stack_size).error,
        env.rpc.reply_handle ::
          (if lp.special_exec_vmo = MX_HANDLE_INVALID then []
           else [lp.special_exec_vmo]),
        false⟩ := by
    simp [launchpad_elf_load, h1, h2, h2z, hne, hstart, hgi, hinterp, hhi,
      MX_HANDLE_INVALID]
  obtain ⟨hp1, hp2, hp3, hp4, hp5⟩ := check_elf_stack_size_preserves
    { lp with base := env.interp_base, entry := env.interp_entry,
              special_exec_vmo := vmo, loader_message := true }
    env.elf_stack_size
  rw [helf]
  refine ⟨by rw [hp1]; exact herr, by rw [hp4], by rw [hp5], by rw [hp2],
    by rw [hp3], rfl, rfl, ?_⟩
  intro hne1 hne2
  by_cases hold : lp.special_exec_vmo = MX_HANDLE_INVALID <;>
    simp [hold, hne1, hne2]

/-- Witness for C5 at a concrete context and environment: interpreter path
"/l" resolves to image handle 21 whose load records base 500/entry 600; the
original image 30 becomes the alternate-executable special handle and only
the interpreter image handle is closed. -/
theorem elf_load_interp_path_witness :
    (launchpad_elf_load { calloc_launchpad with special_loader_svc := 11 } 30
      ⟨0, 0, some [47, 108], 0, 0, 0, 0, 0, ⟨0, 0, 16, 0, 0, 21⟩, 0, 0, 500,
        600⟩).lp.loader_message = true ∧
    (launchpad_elf_load { calloc_launchpad with special_loader_svc := 11 } 30
      ⟨0, 0, some [47, 108], 0, 0, 0, 0, 0, ⟨0, 0, 16, 0, 0, 21⟩, 0, 0, 500,
        600⟩).lp.special_exec_vmo = 30 ∧
    (launchpad_elf_load { calloc_launchpad with special_loader_svc := 11 } 30
      ⟨0, 0, some [47, 108], 0, 0, 0, 0, 0, ⟨0, 0, 16, 0, 0, 21⟩, 0, 0, 500,
        600⟩).lp.entry = 600 ∧
    (launchpad_elf_load { calloc_launchpad with special_loader_svc := 11 } 30
      ⟨0, 0, some [47, 108], 0, 0, 0, 0, 0, ⟨0, 0, 16, 0, 0, 21⟩, 0, 0, 500,
        600⟩).lp.base = 500 ∧
    (launchpad_elf_load { calloc_launchpad with special_loader_svc := 11 } 30
      ⟨0, 0, some [47, 108], 0, 0, 0, 0, 0, ⟨0, 0, 16, 0, 0, 21⟩, 0, 0, 500,
        600⟩).closed = [21] := by
  have h := elf_load_interp_path
    { calloc_launchpad with special_loader_svc := 11 } 30
    ⟨0, 0, some [47, 108], 0, 0, 0, 0, 0, ⟨0, 0, 16, 0, 0, 21⟩, 0, 0, 500,
      600⟩ [47, 108]
    rfl (by decide) (by decide) rfl rfl rfl (by decide) rfl rfl rfl rfl
    (by decide) rfl rfl
  exact ⟨h.2.1, h.2.2.1, h.2.2.2.1, h.2.2.2.2.1,
    by simpa using h.2.2.2.2.2.2.1⟩

/-- In the post-send clearing, every slot below the old count holds
`MX_HANDLE_INVALID`. -/
theorem clear_first_all_invalid (l : List Int) (k : Nat) (hkl : k ≤ l.length) :
    ∀ x ∈ (clear_first l k).take k, x = MX_HANDLE_INVALID := by
  have h1 : ((l.take k).map (fun _ => MX_HANDLE_INVALID)).length = k := by
    simp
    omega
  have h2 : ((l.take k).map (fun _ => MX_HANDLE_INVALID)).take k =
      (l.take k).map (fun _ => MX_HANDLE_INVALID) :=
    List.take_of_length_le (by rw [h1])
  intro x hx
  unfold clear_first at hx
  rw [List.take_append_eq_append_take, h1, Nat.sub_self, List.take_zero,
    List.append_nil, h2, List.mem_map] at hx
  obtain ⟨a, -, ha⟩ := hx
  exact ha.symm

/-- C3 (confirmed): on the success path of `prepare_start` (stack allocated
and mapped, thread created and registered, no loader message), the assembled
generic bootstrap message has size
`header + 4·(count+2) + args_len + env_len` (the stack vmo and thread handles
having been added); if that size exceeds half the stack size the call aborts
with `ERR_BUFFER_TOO_SMALL` without writing the bootstrap message, and if it
is at most half (exactly half included) and the channel write succeeds, the
call succeeds and the handle table is cleared: count zero and every
previously live slot set to `MX_HANDLE_INVALID`.  With `stack_size = 4096`
this puts the boundary at 2048: size 2049 fails, 2048 passes. -/
theorem prepare_start_stack_fit (lp : Launchpad) (env : StartEnv)
    (herr : lp.error = NO_ERROR)
    (hentry : lp.entry ≠ 0)
    (hldr : lp.loader_message = false)
    (hstack : 0 < lp.stack_size)
    (hcap : 2 ≤ lp.handle_alloc - lp.handle_count)
    (hlen : lp.handles.length = lp.handle_alloc)
    (hvc : env.vmo_create_status = NO_ERROR)
    (hsv : env.stack_vmo ≠ MX_HANDLE_INVALID)
    (hmap : env.vmar_map_status = NO_ERROR)
    (htc : env.thread_create_status = NO_ERROR)
    (hdup : env.dup_status = NO_ERROR)
    (hcopy : env.thread_copy ≠ MX_HANDLE_INVALID)
    (hmal : env.msg_malloc_ok = true) :
    (build_message_total (lp.handle_count + 2) lp.args_len lp.env_len >
        lp.stack_size / 2 →
      (prepare_start lp env).status = ERR_BUFFER_TOO_SMALL ∧
      (prepare_start lp env).wrote_bootstrap = false) ∧
    (build_message_total (lp.handle_count + 2) lp.args_len lp.env_len ≤
        lp.stack_size / 2 →
      env.channel_write_status = NO_ERROR →
      (prepare_start lp env).status = NO_ERROR ∧
      (prepare_start lp env).wrote_bootstrap = true ∧
      (prepare_start lp env).lp.handle_count = 0 ∧
      ∀ x ∈ (prepare_start lp env).lp.handles.take (lp.handle_count + 2),
        x = MX_HANDLE_INVALID) := by
  have hne : ¬ lp.error ≠ NO_ERROR := by simp [herr]
  have hg1 : ¬ (lp.handle_alloc - lp.handle_count < 1) := by omega
  have hg2 : ¬ (lp.handle_alloc - (lp.handle_count + 1) < 1) := by omega
  have hvc' : ¬ env.vmo_create_status < 0 := by
    rw [hvc]; decide
  have htc' : ¬ env.thread_create_status < 0 := by
    rw [htc]; decide
  have hdup' : ¬ env.dup_status < 0 := by
    rw [hdup]; decide
  -- The two handle-table insertions of the success path.
  have hA : launchpad_add_handle lp env.stack_vmo MX_HND_TYPE_STACK_VMO
      env.realloc_ok env.realloc_ok =
      ⟨{ lp with
          handles := lp.handles.set lp.handle_count env.stack_vmo,
          handles_info :=
            lp.handles_info.set lp.handle_count MX_HND_TYPE_STACK_VMO,
          handle_count := lp.handle_count + 1,
          error := NO_ERROR, loader_message := false }, NO_ERROR, []⟩ := by
    simp [launchpad_add_handle, more_handles, hne, hg1, hsv, herr, hldr]
  have hB : launchpad_add_handle
      { lp with
          handles := lp.handles.set lp.handle_count env.stack_vmo,
          handles_info :=
            lp.handles_info.set lp.handle_count MX_HND_TYPE_STACK_VMO,
          handle_count := lp.handle_count + 1,
          error := NO_ERROR, loader_message := false }
      env.thread_copy MX_HND_TYPE_THREAD_SELF
      env.realloc_ok env.realloc_ok =
      ⟨{ lp with
          handles := (lp.handles.set lp.handle_count
            env.stack_vmo).set (lp.handle_count + 1) env.thread_copy,
          handles_info := (lp.handles_info.set lp.handle_count
            MX_HND_TYPE_STACK_VMO).set (lp.handle_count + 1)
            MX_HND_TYPE_THREAD_SELF,
          handle_count := lp.handle_count + 1 + 1,
          error := NO_ERROR, loader_message := false }, NO_ERROR, []⟩ := by
    simp [launchpad_add_handle, more_handles, hg2, hcopy]
  have hps : prepare_stack lp env =
      ({ lp with
          handles := lp.handles.set lp.handle_count env.stack_vmo,
          handles_info :=
            lp.handles_info.set lp.handle_count MX_HND_TYPE_STACK_VMO,
          handle_count := lp.handle_count + 1,
          error := NO_ERROR, loader_message := false }, NO_ERROR,
        compute_initial_stack_pointer env.stack_base lp.stack_size,
        [], true) := by
    simp [prepare_stack, hstack, hvc', hmap, hA]
  have hpt : prepare_thread
      { lp with
          handles := lp.handles.set lp.handle_count env.stack_vmo,
          handles_info :=
            lp.handles_info.set lp.handle_count MX_HND_TYPE_STACK_VMO,
          handle_count := lp.handle_count + 1,
          error := NO_ERROR, loader_message := false } env =
      ({ lp with
          handles := (lp.handles.set lp.handle_count
            env.stack_vmo).set (lp.handle_count + 1) env.thread_copy,
          handles_info := (lp.handles_info.set lp.handle_count
            MX_HND_TYPE_STACK_VMO).set (lp.handle_count + 1)
            MX_HND_TYPE_THREAD_SELF,
          handle_count := lp.handle_count + 1 + 1,
          error := NO_ERROR, loader_message := false }, NO_ERROR,
        env.thread, []) := by
    simp [prepare_thread, htc', hdup', hB]
  constructor
  · intro hbig
    have hbig' : build_message_total (lp.handle_count + 1 + 1) lp.args_len
        lp.env_len > lp.stack_size / 2 := by
      simpa using hbig
    simp [prepare_start, hentry, hps, hpt, herr, hldr, hmal, hbig', lp_error]
  · intro hfits hwrite
    have hfits' : ¬ (build_message_total (lp.handle_count + 1 + 1) lp.args_len
        lp.env_len > lp.stack_size / 2) := by
      simpa using hfits
    have hclear := clear_first_all_invalid
      ((lp.handles.set lp.handle_count env.stack_vmo).set
        (lp.handle_count + 1) env.thread_copy)
      (lp.handle_count + 1 + 1)
      (by simp [hlen]; omega)
    refine ⟨?_, ?_, ?_, ?_⟩ <;>
      simp [prepare_start, hentry, hps, hpt, herr, hldr, hmal, hfits', hwrite]
    intro x hx
    exact hclear x (by simpa using hx)

/-- Witness for C3: with `stack_size = 4096` and two table entries pending
(stack vmo + thread added inside `prepare_start`), an argv blob of 2013 bytes
makes the assembled message exactly 2049 bytes — the call fails with
`ERR_BUFFER_TOO_SMALL` and nothing is written; 2012 bytes make it exactly
2048 (= half the stack), the write happens, and the table is cleared. -/
theorem prepare_start_stack_fit_witness :
    (prepare_start { calloc_launchpad with
        entry := 1
        stack_size := 4096
        handles := [0, 0]
        handles_info := [0, 0]
        handle_alloc := 2
        args_len := 2013 }
      ⟨0, 5, 0, 0, true, 0, 6, 0, 7, ⟨true, 0, 0, 0, 0, 0, 0, 0⟩, true, 0⟩
      ).status = ERR_BUFFER_TOO_SMALL ∧
    (prepare_start { calloc_launchpad with
        entry := 1
        stack_size := 4096
        handles := [0, 0]
        handles_info := [0, 0]
        handle_alloc := 2
        args_len := 2013 }
      ⟨0, 5, 0, 0, true, 0, 6, 0, 7, ⟨true, 0, 0, 0, 0, 0, 0, 0⟩, true, 0⟩
      ).wrote_bootstrap = false ∧
    (prepare_start { calloc_launchpad with
        entry := 1
        stack_size := 4096
        handles := [0, 0]
        handles_info := [0, 0]
        handle_alloc := 2
        args_len := 2012 }
      ⟨0, 5, 0, 0, true, 0, 6, 0, 7, ⟨true, 0, 0, 0, 0, 0, 0, 0⟩, true, 0⟩
      ).status = NO_ERROR ∧
    (prepare_start { calloc_launchpad with
        entry := 1
        stack_size := 4096
        handles := [0, 0]
        handles_info := [0, 0]
        handle_alloc := 2
        args_len := 2012 }
      ⟨0, 5, 0, 0, true, 0, 6, 0, 7, ⟨true, 0, 0, 0, 0, 0, 0, 0⟩, true, 0⟩
      ).lp.handle_count = 0 := by
  have hbig := (prepare_start_stack_fit
    { calloc_launchpad with
      entry := 1
      stack_size := 4096
      handles := [0, 0]
      handles_info := [0, 0]
      handle_alloc := 2
      args_len := 2013 }
    ⟨0, 5, 0, 0, true, 0, 6, 0, 7, ⟨true, 0, 0, 0, 0, 0, 0, 0⟩, true, 0⟩
    rfl (by decide) rfl (by decide) (by decide) rfl rfl (by decide) rfl rfl
    rfl (by decide) rfl).1 (by decide)
  have hfit := (prepare_start_stack_fit
    { calloc_launchpad with
      entry := 1
      stack_size := 4096
      handles := [0, 0]
      handles_info := [0, 0]
      handle_alloc := 2
      args_len := 2012 }
    ⟨0, 5, 0, 0, true, 0, 6, 0, 7, ⟨true, 0, 0, 0, 0, 0, 0, 0⟩, true, 0⟩
    rfl (by decide) rfl (by decide) (by decide) rfl rfl (by decide) rfl rfl
    rfl (by decide) rfl).2 (by decide) rfl
  exact ⟨hbig.1, hbig.2, hfit.1, hfit.2.2.1⟩
